import Mathlib

/-!
Shallow embedding of the request-execution core of the `hq-go-http` HTTP
client (src/client.go, src/request/reusable_read_closer.go), together with
proofs settling the frozen claims about its natural-language specification.

Modelling conventions:
- Go errors are modelled by `GoError`: the outer `Error()` text plus the set
  of typed nodes reachable through the `errors.Unwrap` chain (which is what
  `errors.As` inspects).
- `nil`-able Go values are `Option`s.
- The two regular expressions of src/client.go are embedded as executable
  string predicates equivalent to Go's `MatchString` for those patterns.
- The external retry engine (`retrier.RetryWithData`, a separate module not
  in this repository) is modelled from the spec, see `retryLoop`.
-/

namespace HqHttp

/-- Typed nodes that can occur in a Go error's unwrap chain. `urlError`
stands for `*url.Error`, `x509UnknownAuthority` for
`x509.UnknownAuthorityError`; `other` covers every other error type. -/
inductive GoNode where
  | urlError : GoNode
  | x509UnknownAuthority : GoNode
  | other : GoNode
deriving DecidableEq, Repr

/-- Model of a non-nil Go `error` value: its `Error()` text and the typed
nodes reachable through the `errors.Unwrap` chain (the error itself
included), which is what `errors.As` searches. -/
structure GoError where
  text : String
  chain : List GoNode
deriving DecidableEq, Repr

/-- Model of `errors.As(err, &URLError)` with `URLError : *url.Error`:
some node in the unwrap chain is a `*url.Error`. -/
def wrapsURLError (e : GoError) : Bool :=
  e.chain.contains GoNode.urlError

/-- Model of `errors.As(err, &UnknownAuthorityError)` with
`UnknownAuthorityError : x509.UnknownAuthorityError`. -/
def wrapsUnknownAuthority (e : GoError) : Bool :=
  e.chain.contains GoNode.x509UnknownAuthority

/-- Whether the character list `pat` occurs contiguously inside `l`
(Go's `strings.Contains` on the underlying text). -/
def charsContain (l pat : List Char) : Bool :=
  (List.range (l.length + 1)).any fun i => pat.isPrefixOf (l.drop i)

/-- Go's `strings.Contains s pat`: `pat` is a contiguous substring of `s`. -/
def containsSubstring (s pat : String) : Bool :=
  charsContain s.toList pat.toList

/-- Embedding of `redirectsErrorRegex.MatchString` for the pattern
`stopped after \d+ redirects\z` (src/client.go): the text ends with
`stopped after `, then one or more decimal digits, then ` redirects`.
Because the character before the digit run is a space, the digit run is
exactly the maximal digit suffix left of ` redirects`. -/
def redirectsErrorRegexMatchString (s : String) : Bool :=
  let cs := s.toList
  let tail := (" redirects").toList
  tail.isSuffixOf cs &&
    (let u := cs.take (cs.length - tail.length)
     let revu := u.reverse
     let digits := revu.takeWhile Char.isDigit
     let rest := (revu.dropWhile Char.isDigit).reverse
     (!digits.isEmpty) && ("stopped after ").toList.isSuffixOf rest)

/-- Embedding of `schemeErrorRegex.MatchString` for the pattern
`unsupported protocol scheme` (src/client.go): plain substring search. -/
def schemeErrorRegexMatchString (s : String) : Bool :=
  containsSubstring s "unsupported protocol scheme"

/-- Embedding of `isErrorRecoverable` (src/client.go:661-703), the default
retry policy. `ctxErr` models `ctx.Err()` (`none` when the context is live),
`err` the error of the attempt (`none` on success). Returns
`(recoverable, errr)` exactly as the Go function does. -/
def isErrorRecoverable (ctxErr : Option GoError) (err : Option GoError) :
    Bool × Option GoError :=
  match ctxErr with
  | some ce => (false, some ce)
  | none =>
    match err with
    | some e =>
      if wrapsURLError e then
        if redirectsErrorRegexMatchString e.text then (false, some e)
        else if schemeErrorRegexMatchString e.text then (false, some e)
        else if wrapsUnknownAuthority e then (false, some e)
        else (true, none)
      else (true, none)
    | none => (false, none)

/-- The decision table claim C1 ascribes to the default retry policy,
written from the claim's words (reading, as the quoted spec sentences do,
all three terminal error classes as cases of a URL-transport error):
context dead ⇒ `(false, ctx.Err())`; a `*url.Error`-wrapping error whose
text matches the redirects or scheme pattern, or which wraps an
unknown-authority failure ⇒ `(false, err)`; any other non-nil error ⇒
`(true, nil)`; nil error ⇒ `(false, nil)`. -/
def defaultRetryPolicyClaimTable (ctxErr : Option GoError) (err : Option GoError) :
    Bool × Option GoError :=
  if ctxErr.isSome then (false, ctxErr)
  else
    match err with
    | none => (false, none)
    | some e =>
      if wrapsURLError e &&
          (redirectsErrorRegexMatchString e.text ||
           schemeErrorRegexMatchString e.text ||
           wrapsUnknownAuthority e) then
        (false, some e)
      else (true, none)

/-- The broken-connection signature matched by `isErrorHTTP1Broken`
(src/client.go:643-647). -/
def http1BrokenSignature : String :=
  "net/http: HTTP/1.x transport connection broken: malformed HTTP version \"HTTP/2\""

/-- Embedding of `isErrorHTTP1Broken` (src/client.go:643-647):
`err != nil && strings.Contains(err.Error(), signature)`. -/
def isErrorHTTP1Broken (err : Option GoError) : Bool :=
  match err with
  | some e => containsSubstring e.text http1BrokenSignature
  | none => false

/-- Model of an `*http.Response` as far as the claims observe it: Do's
"giving up" message only reads `res.StatusCode`. -/
structure Resp where
  statusCode : Nat
deriving DecidableEq, Repr

/-- Observable state threaded through the model of `Client.Do`:
`counter` is the client's `requestCounter`; `forcedCloses` counts calls of
`internalHTTPClient.CloseIdleConnections()`; the remaining fields count
physical transport invocations and hook firings. -/
structure DoState where
  primaryCalls : Nat
  fallbackCalls : Nat
  onRequestFires : Nat
  onResponseFires : Nat
  onErrorFires : Nat
  counter : Nat
  forcedCloses : Nat
deriving DecidableEq, Repr

/-- The all-zero state of a freshly constructed client. -/
def initialDoState : DoState :=
  { primaryCalls := 0, fallbackCalls := 0, onRequestFires := 0,
    onResponseFires := 0, onErrorFires := 0, counter := 0, forcedCloses := 0 }

/-- Embedding of `Client.closeIdleConnections` (src/client.go:160-169):
when `cfg.KillIdleConn` is set, increment `requestCounter` while it is
below 100, otherwise reset it to 0 and force-close the primary client's
idle connections. -/
def closeIdleConnections (kill : Bool) (s : DoState) : DoState :=
  if kill then
    if s.counter < 100 then { s with counter := s.counter + 1 }
    else { s with counter := 0, forcedCloses := s.forcedCloses + 1 }
  else s

/-- Model of a retry policy: takes `req.Context().Err()` and the attempt's
error, returns `(retry, override)` (`RetryPolicy`, src/client.go:433). -/
abbrev PolicyFun : Type :=
  Option GoError → Option GoError → Bool × Option GoError

/-- Installed hooks of the client. `onRequest`/`onResponse` only record
whether a hook is installed (the model counts their firings);
`onError` carries the hook function itself since `Do` returns its result. -/
structure Hooks where
  onRequest : Bool
  onResponse : Bool
  onError : Option (Option Resp → Option GoError → Nat → Option Resp × Option GoError)

/-- The hookless client. -/
def noHooks : Hooks :=
  { onRequest := false, onResponse := false, onError := none }

/-- Embedding of one execution of the work closure passed to
`retrier.RetryWithData` in `Client.Do` (src/client.go:78-113). Transports
are modelled as functions from the number of calls made to them so far to
the outcome `(res, err)` of the next call. Returns the attempt's
`(res, err)`, the policy's retry flag, and the updated state; mirrors the
source order: on-request hook, primary call, HTTP/2 fallback on the broken
signature, policy check on the (possibly substituted) error, on-response
hook, then either the non-retry path (error override plus
`closeIdleConnections`) or the retry path (body drain, not tracked). -/
def doAttempt (policy : PolicyFun) (ctxErr : Option GoError) (kill : Bool)
    (primary fallback : Nat → Option Resp × Option GoError)
    (hooks : Hooks) (s : DoState) :
    Option Resp × Option GoError × Bool × DoState :=
  let s0 := if hooks.onRequest then { s with onRequestFires := s.onRequestFires + 1 } else s
  let out1 := primary s0.primaryCalls
  let s1 := { s0 with primaryCalls := s0.primaryCalls + 1 }
  let step2 :=
    if isErrorHTTP1Broken out1.2 then
      let out2 := fallback s1.fallbackCalls
      (out2, { s1 with fallbackCalls := s1.fallbackCalls + 1 })
    else (out1, s1)
  let res := step2.1.1
  let err := step2.1.2
  let s2 := step2.2
  let decision := policy ctxErr err
  let s3 :=
    if err = none ∧ res.isSome ∧ hooks.onResponse then
      { s2 with onResponseFires := s2.onResponseFires + 1 }
    else s2
  if decision.1 then
    (res, err, true, s3)
  else
    let errFinal := match decision.2 with
      | some e => some e
      | none => err
    (res, errFinal, false, closeIdleConnections kill s3)

/-- Modelled from the spec: the external retry engine
`retrier.RetryWithData` (module `go.source.hueristiq.com/retrier`, not part
of this repository). Spec §4.4: run the work unit, consult the retry
policy's decision; stop on a non-retry decision or when the attempt budget
(retry-max additional attempts after the first, i.e. retry-max + 1 attempts
in total) is exhausted; otherwise back off (timing not modelled) and try
again. `budget` is the number of retries still allowed. -/
def retryLoop (policy : PolicyFun) (ctxErr : Option GoError) (kill : Bool)
    (primary fallback : Nat → Option Resp × Option GoError) (hooks : Hooks) :
    Nat → DoState → Option Resp × Option GoError × DoState
  | 0, s =>
    let out := doAttempt policy ctxErr kill primary fallback hooks s
    (out.1, out.2.1, out.2.2.2)
  | Nat.succ budget, s =>
    let out := doAttempt policy ctxErr kill primary fallback hooks s
    if out.2.2.1 then
      retryLoop policy ctxErr kill primary fallback hooks budget out.2.2.2
    else (out.1, out.2.1, out.2.2.2)

/-- The wrapped terminal error built by `Client.Do` (src/client.go:129-139):
`fmt.Errorf("%s %s giving up after %d attempts: ...", req.Method, req.URL,
c.cfg.RetryMax, ...)`, including `response status <code>` when a response
was present; `%w` keeps the cause's unwrap chain reachable. -/
def giveUpError (method url : String) (retryMax : Nat) (res : Option Resp)
    (cause : GoError) : GoError :=
  match res with
  | some r =>
    { text := method ++ " " ++ url ++ " giving up after " ++ toString retryMax ++
        " attempts: response status " ++ toString r.statusCode ++ ": " ++ cause.text,
      chain := GoNode.other :: cause.chain }
  | none =>
    { text := method ++ " " ++ url ++ " giving up after " ++ toString retryMax ++
        " attempts: " ++ cause.text,
      chain := GoNode.other :: cause.chain }

/-- Embedding of `Client.Do` (src/client.go:73-142) over the spec-modelled
retry engine: run the retry loop with a budget of `retryMax` retries; if an
on-error hook is installed, run `closeIdleConnections`, fire the hook once
with `(res, err, cfg.RetryMax)` and return its pair unchanged; otherwise,
on a non-nil final error, close the dangling body (not tracked), wrap the
error in the "giving up" message and run `closeIdleConnections`. -/
def doExec (retryMax : Nat) (kill : Bool) (policy : PolicyFun) (ctxErr : Option GoError)
    (primary fallback : Nat → Option Resp × Option GoError) (hooks : Hooks)
    (method url : String) (s : DoState) :
    Option Resp × Option GoError × DoState :=
  let out := retryLoop policy ctxErr kill primary fallback hooks retryMax s
  match hooks.onError with
  | some h =>
    let s1 := closeIdleConnections kill out.2.2
    let s2 := { s1 with onErrorFires := s1.onErrorFires + 1 }
    let pair := h out.1 out.2.1 retryMax
    (pair.1, pair.2, s2)
  | none =>
    match out.2.1 with
    | some e =>
      (out.1, some (giveUpError method url retryMax out.1 e),
        closeIdleConnections kill out.2.2)
    | none => (out.1, none, out.2.2)

/-- A sequence of `n` sequential `Do` calls on the same client (the
`requestCounter` and the cumulative counts persist across calls); results
of the individual calls are discarded. -/
def doCalls (retryMax : Nat) (kill : Bool) (policy : PolicyFun) (ctxErr : Option GoError)
    (primary fallback : Nat → Option Resp × Option GoError) (hooks : Hooks)
    (method url : String) : Nat → DoState → DoState
  | 0, s => s
  | Nat.succ n, s =>
    doCalls retryMax kill policy ctxErr primary fallback hooks method url n
      (doExec retryMax kill policy ctxErr primary fallback hooks method url s).2.2

/-- The supported inputs of `NewReusableReadCloser`
(src/request/reusable_read_closer.go:50-100), one case per arm of its type
switch; stream-like inputs (`*bytes.Reader`, `*strings.Reader`,
`*io.SectionReader`, `io.ReadSeeker`, `io.Reader`) are all fully drained by
`io.ReadAll` and are represented by the byte content they produce. Bytes
are `Nat`s. -/
inductive RawBody where
  | nilBody : RawBody
  | bytes (data : List Nat) : RawBody
  | bytesPtr (data : List Nat) : RawBody
  | str (s : List Nat) : RawBody
  | buffer (data : List Nat) : RawBody
  | reader (data : List Nat) : RawBody
deriving DecidableEq, Repr

/-- The byte slice `NewReusableReadCloser` stores for each input. -/
def rawBodyData : RawBody → List Nat
  | RawBody.nilBody => []
  | RawBody.bytes data => data
  | RawBody.bytesPtr data => data
  | RawBody.str s => s
  | RawBody.buffer data => data
  | RawBody.reader data => data

/-- Model of `ReusableReadCloser`
(src/request/reusable_read_closer.go:25-29): the stored byte slice and the
internal `bytes.Reader`'s read offset. -/
structure ReusableReadCloser where
  data : List Nat
  pos : Nat
deriving DecidableEq, Repr

/-- Embedding of `NewReusableReadCloser`: wrap the converted bytes with the
reader positioned at the start. -/
def newReusableReadCloser (raw : RawBody) : ReusableReadCloser :=
  { data := rawBodyData raw, pos := 0 }

/-- Model of Go's `bytes.Reader.Read` into a buffer of capacity `cap`:
at or past the end it returns `(0 bytes, io.EOF)`; otherwise it copies
`min cap remaining` bytes and advances. The `Bool` is the `io.EOF` flag. -/
def bytesReaderRead (r : ReusableReadCloser) (cap : Nat) :
    List Nat × Bool × ReusableReadCloser :=
  if r.data.length ≤ r.pos then ([], true, r)
  else
    let chunk := (r.data.drop r.pos).take cap
    (chunk, false, { r with pos := r.pos + chunk.length })

/-- Embedding of `ReusableReadCloser.Read`
(src/request/reusable_read_closer.go:122-144): empty data reads zero bytes;
otherwise read from the inner `bytes.Reader`; on `io.EOF` with bytes read,
reset the offset to 0 and suppress the EOF; on `io.EOF` with no bytes read,
reset the offset to 0 and read once more. The method never surfaces an
error, so the model returns just the bytes and the new state. -/
def reusableRead (r : ReusableReadCloser) (cap : Nat) :
    List Nat × ReusableReadCloser :=
  if r.data.length = 0 then ([], r)
  else
    let out := bytesReaderRead r cap
    if out.2.1 then
      if 0 < out.1.length then (out.1, { out.2.2 with pos := 0 })
      else
        let out2 := bytesReaderRead { out.2.2 with pos := 0 } cap
        (out2.1, out2.2.2)
    else (out.1, out.2.2)

/-- Read repeatedly with buffer capacity `cap`, accumulating the bytes,
until a full pass over the stored data has been collected (or the fuel runs
out); models a caller reading the body to completion. -/
def readLoop (cap : Nat) : Nat → ReusableReadCloser → List Nat → List Nat × ReusableReadCloser
  | 0, r, acc => (acc, r)
  | Nat.succ fuel, r, acc =>
    if r.data.length ≤ acc.length then (acc, r)
    else
      let out := reusableRead r cap
      readLoop cap fuel out.2 (acc ++ out.1)

/-- Read the reusable body to completion: `data.length + 1` reads always
suffice since every read of a non-empty body returns at least one byte. -/
def readToCompletion (r : ReusableReadCloser) (cap : Nat) :
    List Nat × ReusableReadCloser :=
  readLoop cap (r.data.length + 1) r []

/-- Identity of a configured retry policy, for tracking which function
value sits in `ClientConfiguration.RetryPolicy`; `defaultPolicy` is the
value produced by `DefaultRetryPolicy()` (src/client.go:609-611), i.e.
`isErrorRecoverable`. -/
inductive PolicyTag where
  | defaultPolicy : PolicyTag
  | custom (id : Nat) : PolicyTag
deriving DecidableEq, Repr

/-- Identity of a configured backoff strategy; `exponential` is
`backoff.Exponential()` from the external backoff package. -/
inductive BackoffTag where
  | exponential : BackoffTag
  | custom (id : Nat) : BackoffTag
deriving DecidableEq, Repr

/-- The fields of an `http.Client`'s transport that
`setKillIdleConnections` (src/client.go:148-154) inspects:
whether the transport type-asserts to `*http.Transport`, and its
`DisableKeepAlives` and `MaxConnsPerHost` fields. -/
structure TransportDesc where
  isHTTPTransport : Bool
  disableKeepAlives : Bool
  maxConnsPerHost : Int
deriving DecidableEq, Repr

/-- Embedding of `ClientConfiguration` (src/client.go:406-419). Durations
are nanosecond counts. `httpClient` is described by its transport. -/
structure ClientConfiguration where
  httpClient : Option TransportDesc
  timeout : Int
  retryPolicy : Option PolicyTag
  retryMax : Int
  retryWaitMin : Int
  retryWaitMax : Int
  retryBackoff : Option BackoffTag
  killIdleConn : Bool
  respReadLimit : Int
deriving DecidableEq, Repr

/-- Transport of `DefaultHTTPPooledTransport()` (src/client.go:554-571):
a `*http.Transport` with keep-alives enabled and `MaxConnsPerHost` left at
its zero value. -/
def defaultPooledTransportDesc : TransportDesc :=
  { isHTTPTransport := true, disableKeepAlives := false, maxConnsPerHost := 0 }

/-- Transport of `DefaultHTTPTransport()` (src/client.go:536-543): the
pooled transport with `DisableKeepAlives = true` (`MaxIdleConnsPerHost` is
set to -1, `MaxConnsPerHost` stays 0). -/
def defaultHTTPTransportDesc : TransportDesc :=
  { isHTTPTransport := true, disableKeepAlives := true, maxConnsPerHost := 0 }

/-- The primary transport `NewClient` ends up with (src/client.go:487-497):
the pooled default, replaced by the non-pooled default when
`cfg.KillIdleConn` is set, replaced by `cfg.HTTPClient` when provided. -/
def newClientPrimaryTransport (cfg : ClientConfiguration) : TransportDesc :=
  match cfg.httpClient with
  | some t => t
  | none => if cfg.killIdleConn then defaultHTTPTransportDesc else defaultPooledTransportDesc

/-- Embedding of `Client.setKillIdleConnections` (src/client.go:148-154)
as its effect on `cfg.KillIdleConn`: the guard
`c.internalHTTPClient != nil || !c.cfg.KillIdleConn` always holds after
construction, and when the primary transport is a `*http.Transport` the
flag is overwritten with `DisableKeepAlives || MaxConnsPerHost < 0`. -/
def setKillIdleConnections (primaryTransport : TransportDesc) (kill : Bool) : Bool :=
  if primaryTransport.isHTTPTransport then
    primaryTransport.disableKeepAlives || primaryTransport.maxConnsPerHost < 0
  else kill

/-- Embedding of the mutation `NewClient` (src/client.go:486-528) performs
on the caller's `*ClientConfiguration` (the pointer is stored in
`client.cfg` without copying): install the default retry policy and the
exponential backoff when the respective field is nil, and overwrite
`KillIdleConn` via `setKillIdleConnections`. The HTTP/2 transport setup is
modelled as succeeding, which it does for the freshly built default
transport. -/
def newClientCfg (cfg : ClientConfiguration) : ClientConfiguration :=
  let transport := newClientPrimaryTransport cfg
  let cfg1 :=
    match cfg.retryPolicy with
    | none => { cfg with retryPolicy := some PolicyTag.defaultPolicy }
    | some _ => cfg
  let cfg2 :=
    match cfg1.retryBackoff with
    | none => { cfg1 with retryBackoff := some BackoffTag.exponential }
    | some _ => cfg1
  { cfg2 with killIdleConn := setKillIdleConnections transport cfg2.killIdleConn }

/-- The literal `DefaultSingleClientConfiguration` (src/client.go:447-454):
30s timeout, 5 retries, waits of 1s and 30s, `KillIdleConn = false`,
4096-byte drain limit; `HTTPClient`, `RetryPolicy` and `RetryBackoff` are
left nil. `init` (src/client.go:472-474) passes this very object to
`NewClient`. -/
def DefaultSingleClientConfiguration : ClientConfiguration :=
  { httpClient := none,
    timeout := 30000000000,
    retryPolicy := none,
    retryMax := 5,
    retryWaitMin := 1000000000,
    retryWaitMax := 30000000000,
    retryBackoff := none,
    killIdleConn := false,
    respReadLimit := 4096 }

/-- The counter update performed by `closeIdleConnections`, as a function
of the flag and the old counter alone. -/
def nextCounter (kill : Bool) (c : Nat) : Nat :=
  if kill then (if c < 100 then c + 1 else 0) else c

/-- The forced-close count after `closeIdleConnections`, as a function of
the flag, the old counter and the old count alone. -/
def nextForced (kill : Bool) (c f : Nat) : Nat :=
  if kill then (if c < 100 then f else f + 1) else f

/-- Test fixture: a generic transient error (the repository's own test
suite uses the same shape). -/
def tempErr : GoError :=
  { text := "temporary error", chain := [GoNode.other] }

/-- Test fixture: an error carrying the HTTP/1.x broken-connection
signature, as returned by the primary transport in the fallback tests. -/
def brokenErr : GoError :=
  { text := http1BrokenSignature, chain := [GoNode.other] }

/-- Test fixture: a 200 response. -/
def okResp : Resp :=
  { statusCode := 200 }

/-- Test fixture: the always-retry policy of E2E scenario A. -/
def alwaysRetryPolicy : PolicyFun :=
  fun _ _ => (true, none)

/-- Test fixture: a policy that never retries and never overrides. -/
def stopPolicy : PolicyFun :=
  fun _ _ => (false, none)

/-- Test fixture: a transport that always fails with the transient error. -/
def failTransport : Nat → Option Resp × Option GoError :=
  fun _ => (none, some tempErr)

/-- Test fixture: a transport that always fails with the HTTP/1.x
broken-connection signature. -/
def brokenTransport : Nat → Option Resp × Option GoError :=
  fun _ => (none, some brokenErr)

/-- Test fixture: a transport that always succeeds with a 200 response. -/
def succeedTransport : Nat → Option Resp × Option GoError :=
  fun _ => (some okResp, none)

/-- Test fixture: a transport that succeeds on its first invocation and
fails afterwards, to pin down how often it is called. -/
def fallbackOnceTransport : Nat → Option Resp × Option GoError :=
  fun n => if n = 0 then (some okResp, none) else (none, some tempErr)

/-- Test fixture: only the before-request hook installed. -/
def onRequestHooks : Hooks :=
  { onRequest := true, onResponse := false, onError := none }

/-- Test fixture: only an on-error hook installed, passing the loop's
result through unchanged. -/
def passThroughOnErrorHooks : Hooks :=
  { onRequest := false, onResponse := false, onError := some fun r e _ => (r, e) }

/-- Test fixture: a client state whose request counter sits at the
threshold value 100. -/
def atThresholdState : DoState :=
  { initialDoState with counter := 100 }

/-- Claim C1 (confirmed): for every context state and every error, the
default retry policy `isErrorRecoverable` returns exactly the decision the
claim describes: `(false, ctx.Err())` when the context is already cancelled
or past its deadline; `(false, err)` when the error wraps a `*url.Error`
and its text matches the too-many-redirects or unsupported-protocol-scheme
pattern or it wraps an `x509.UnknownAuthorityError`; `(true, nil)` for any
other non-nil error; and `(false, nil)` when the error is nil. -/
theorem c1_default_retry_policy_cases (ctxErr err : Option GoError) :
    isErrorRecoverable ctxErr err = defaultRetryPolicyClaimTable ctxErr err := by
  cases ctxErr with
  | some ce => rfl
  | none =>
    cases err with
    | none => rfl
    | some e =>
      simp only [isErrorRecoverable, defaultRetryPolicyClaimTable, Option.isSome_none,
        Bool.false_eq_true, if_false]
      by_cases hu : wrapsURLError e <;>
        by_cases hr : redirectsErrorRegexMatchString e.text <;>
          by_cases hs : schemeErrorRegexMatchString e.text <;>
            by_cases ha : wrapsUnknownAuthority e <;>
              simp [hu, hr, hs, ha]

theorem noHooks_onRequest : noHooks.onRequest = false := rfl

theorem noHooks_onResponse : noHooks.onResponse = false := rfl

theorem noHooks_onError : noHooks.onError = none := rfl

theorem initialDoState_primaryCalls : initialDoState.primaryCalls = 0 := rfl

theorem initialDoState_fallbackCalls : initialDoState.fallbackCalls = 0 := rfl

theorem initialDoState_counter : initialDoState.counter = 0 := rfl

theorem initialDoState_forcedCloses : initialDoState.forcedCloses = 0 := rfl

theorem initialDoState_onErrorFires : initialDoState.onErrorFires = 0 := rfl

theorem closeIdleConnections_counter (kill : Bool) (s : DoState) :
    (closeIdleConnections kill s).counter = nextCounter kill s.counter := by
  simp only [closeIdleConnections, nextCounter]
  split_ifs <;> rfl

theorem closeIdleConnections_forced (kill : Bool) (s : DoState) :
    (closeIdleConnections kill s).forcedCloses = nextForced kill s.counter s.forcedCloses := by
  simp only [closeIdleConnections, nextForced]
  split_ifs <;> rfl

theorem retryLoop_const_fail (cause : GoError)
    (hsig : containsSubstring cause.text http1BrokenSignature = false)
    (kill : Bool) (fallback : Nat → Option Resp × Option GoError) (n : Nat) (s : DoState) :
    retryLoop alwaysRetryPolicy none kill (fun _ => (none, some cause)) fallback noHooks n s =
      (none, some cause, { s with primaryCalls := s.primaryCalls + (n + 1) }) := by
  induction n generalizing s with
  | zero =>
    simp [retryLoop, doAttempt, isErrorHTTP1Broken, hsig, noHooks_onRequest,
      noHooks_onResponse, alwaysRetryPolicy]
  | succ n ih =>
    simp only [retryLoop, doAttempt, isErrorHTTP1Broken, hsig, noHooks_onRequest,
      noHooks_onResponse, alwaysRetryPolicy, Bool.false_eq_true, if_false, if_true]
    simp [ih, Prod.mk.injEq, DoState.mk.injEq]
    try omega

/-- Claim C2 counterexample: with retry-max = 2, a transport that always
errors and an always-retry policy, three attempts are performed but the
final error text says "giving up after 2 attempts" and does not contain
"giving up after 3 attempts", contradicting the claimed
N = retry-max + 1. -/
theorem c2_giving_up_message_counterexample :
    (doExec 2 false alwaysRetryPolicy none failTransport failTransport noHooks
        "GET" "http://example.com/retry" initialDoState).2.2.primaryCalls = 3 ∧
    (doExec 2 false alwaysRetryPolicy none failTransport failTransport noHooks
        "GET" "http://example.com/retry" initialDoState).2.1 =
      some { text := "GET http://example.com/retry giving up after 2 attempts: temporary error",
             chain := [GoNode.other, GoNode.other] } ∧
    containsSubstring
      "GET http://example.com/retry giving up after 2 attempts: temporary error"
      "giving up after 3 attempts" = false ∧
    containsSubstring
      "GET http://example.com/retry giving up after 2 attempts: temporary error"
      "giving up after 2 attempts" = true := by
  refine ⟨by decide, by decide, by decide, by decide⟩

/-- Claim C2 as amended: when `Do`'s retry loop finishes with a non-nil
error and no on-error hook is installed, the returned error text is
`"<method> <url> giving up after <retry-max> attempts: <cause>"` — the
number printed is `cfg.RetryMax`, one less than the total number of
attempts performed, which is retry-max + 1; in particular, with
retry-max = 2, an always-erroring transport and an always-retry policy,
3 attempts are made and the message says "giving up after 2 attempts". -/
theorem c2_giving_up_message_amended (retryMax : Nat) (method url : String)
    (cause : GoError)
    (hsig : containsSubstring cause.text http1BrokenSignature = false) :
    (doExec retryMax false alwaysRetryPolicy none (fun _ => (none, some cause))
        (fun _ => (none, some cause)) noHooks method url initialDoState).2.2.primaryCalls =
      retryMax + 1 ∧
    (doExec retryMax false alwaysRetryPolicy none (fun _ => (none, some cause))
        (fun _ => (none, some cause)) noHooks method url initialDoState).2.1 =
      some { text := method ++ " " ++ url ++ " giving up after " ++ toString retryMax ++
               " attempts: " ++ cause.text,
             chain := GoNode.other :: cause.chain } := by
  have hloop := retryLoop_const_fail cause hsig false (fun _ => (none, some cause))
    retryMax initialDoState
  constructor
  · simp [doExec, hloop, noHooks_onError, closeIdleConnections,
      initialDoState_primaryCalls]
  · simp [doExec, hloop, noHooks_onError, giveUpError]

/-- Witness for `c2_giving_up_message_amended` at retry-max = 2 and the
transient error of the repository's test suite. -/
theorem c2_giving_up_message_amended_witness :
    (doExec 2 false alwaysRetryPolicy none (fun _ => (none, some tempErr))
        (fun _ => (none, some tempErr)) noHooks "GET" "http://example.com/retry"
        initialDoState).2.2.primaryCalls = 2 + 1 ∧
    (doExec 2 false alwaysRetryPolicy none (fun _ => (none, some tempErr))
        (fun _ => (none, some tempErr)) noHooks "GET" "http://example.com/retry"
        initialDoState).2.1 =
      some { text := "GET" ++ " " ++ "http://example.com/retry" ++ " giving up after " ++
               toString 2 ++ " attempts: " ++ tempErr.text,
             chain := GoNode.other :: tempErr.chain } :=
  c2_giving_up_message_amended 2 "GET" "http://example.com/retry" tempErr (by decide)

/-- Claim C3 (confirmed; the retry engine around the attempt is modelled
from the spec): whenever the primary transport returns an error whose text
contains the malformed-HTTP-version broken-connection signature, the same
request is immediately re-issued on the HTTP/2 fallback within the same
attempt (both call counters advance by one), the response is the
fallback's, the retry decision is the policy's decision on the fallback's
error (and on a retry decision the attempt's error is the fallback's
error), and the substitution consumes no retry-budget slot: with
retry-max = 1, a primary that always fails with the signature and a
fallback that succeeds on its first invocation, the call succeeds after
exactly 1 primary call and 1 fallback call. -/
theorem c3_fallback_within_attempt :
    (∀ (policy : PolicyFun) (ctxErr : Option GoError) (kill : Bool)
        (primary fallback : Nat → Option Resp × Option GoError) (hooks : Hooks)
        (s : DoState) (pr : Option Resp) (e : GoError),
        primary s.primaryCalls = (pr, some e) →
        containsSubstring e.text http1BrokenSignature = true →
        (doAttempt policy ctxErr kill primary fallback hooks s).2.2.2.primaryCalls =
            s.primaryCalls + 1 ∧
          (doAttempt policy ctxErr kill primary fallback hooks s).2.2.2.fallbackCalls =
            s.fallbackCalls + 1 ∧
          (doAttempt policy ctxErr kill primary fallback hooks s).1 =
            (fallback s.fallbackCalls).1 ∧
          (doAttempt policy ctxErr kill primary fallback hooks s).2.2.1 =
            (policy ctxErr (fallback s.fallbackCalls).2).1 ∧
          ((policy ctxErr (fallback s.fallbackCalls).2).1 = true →
            (doAttempt policy ctxErr kill primary fallback hooks s).2.1 =
              (fallback s.fallbackCalls).2)) ∧
    doExec 1 false isErrorRecoverable none brokenTransport fallbackOnceTransport noHooks
        "GET" "http://example.com/fallback" initialDoState =
      (some okResp, none,
        { primaryCalls := 1, fallbackCalls := 1, onRequestFires := 0, onResponseFires := 0,
          onErrorFires := 0, counter := 0, forcedCloses := 0 }) := by
  constructor
  · intro policy ctxErr kill primary fallback hooks s pr e hp hsig
    cases hro : hooks.onRequest <;>
      cases hrp : (policy ctxErr (fallback s.fallbackCalls).2).1 <;>
        simp [doAttempt, hro, hp, hsig, isErrorHTTP1Broken, hrp, closeIdleConnections] <;>
          split_ifs <;> simp_all
  · decide

/-- Witness for the universally quantified part of
`c3_fallback_within_attempt`, instantiated at the broken-signature
transport fixtures. -/
theorem c3_fallback_within_attempt_witness :
    (doAttempt stopPolicy none false brokenTransport fallbackOnceTransport noHooks
        initialDoState).2.2.2.fallbackCalls = initialDoState.fallbackCalls + 1 ∧
    (doAttempt stopPolicy none false brokenTransport fallbackOnceTransport noHooks
        initialDoState).2.2.2.primaryCalls = initialDoState.primaryCalls + 1 :=
  ⟨(c3_fallback_within_attempt.1 stopPolicy none false brokenTransport fallbackOnceTransport
      noHooks initialDoState none brokenErr rfl (by decide)).2.1,
   (c3_fallback_within_attempt.1 stopPolicy none false brokenTransport fallbackOnceTransport
      noHooks initialDoState none brokenErr rfl (by decide)).1⟩

set_option maxRecDepth 40000 in
/-- Claim C4 (confirmed; the retry engine is modelled from the spec): with
close-idle-connections enabled, 101 successful sequential calls (policy
never retries, no hooks) force-close the primary transport's idle
connections exactly once, at the 101st call: after 100 calls the counter is
100 and no forced close has happened; after the 101st call the counter has
wrapped to 0 and exactly one forced close has happened. -/
theorem c4_idle_connection_threshold :
    (doCalls 1 true stopPolicy none succeedTransport succeedTransport noHooks "GET"
        "http://example.com/ping" 100 initialDoState).forcedCloses = 0 ∧
    (doCalls 1 true stopPolicy none succeedTransport succeedTransport noHooks "GET"
        "http://example.com/ping" 100 initialDoState).counter = 100 ∧
    (doCalls 1 true stopPolicy none succeedTransport succeedTransport noHooks "GET"
        "http://example.com/ping" 101 initialDoState).forcedCloses = 1 ∧
    (doCalls 1 true stopPolicy none succeedTransport succeedTransport noHooks "GET"
        "http://example.com/ping" 101 initialDoState).counter = 0 := by
  refine ⟨by decide, by decide, by decide, by decide⟩

/-- Claim C5 counterexample: an attempt that the policy classifies as
to-be-retried does not invoke the connection-lifecycle maintenance even
with close-idle-connections enabled — the counter stays 0 and no forced
close happens, whereas an invocation of the maintenance operation would
have moved the counter to 1. -/
theorem c5_maintenance_every_attempt_counterexample :
    (doAttempt alwaysRetryPolicy none true failTransport failTransport noHooks
        initialDoState).2.2.1 = true ∧
    (doAttempt alwaysRetryPolicy none true failTransport failTransport noHooks
        initialDoState).2.2.2.counter = 0 ∧
    (doAttempt alwaysRetryPolicy none true failTransport failTransport noHooks
        initialDoState).2.2.2.forcedCloses = 0 ∧
    (closeIdleConnections true initialDoState).counter = 1 := by
  refine ⟨by decide, by decide, by decide, by decide⟩

/-- Claim C5 as amended: the connection-lifecycle maintenance
(`closeIdleConnections`) runs inside an attempt exactly when the attempt's
outcome is classified as non-retry (it also runs once more on `Do`'s
on-error and final-failure paths); an attempt that will be retried leaves
the counter and the forced-close count untouched. -/
theorem c5_maintenance_on_terminal_attempts_amended (policy : PolicyFun)
    (ctxErr : Option GoError) (kill : Bool)
    (primary fallback : Nat → Option Resp × Option GoError) (hooks : Hooks)
    (s : DoState) :
    ((doAttempt policy ctxErr kill primary fallback hooks s).2.2.1 = true →
      (doAttempt policy ctxErr kill primary fallback hooks s).2.2.2.counter = s.counter ∧
      (doAttempt policy ctxErr kill primary fallback hooks s).2.2.2.forcedCloses =
        s.forcedCloses) ∧
    ((doAttempt policy ctxErr kill primary fallback hooks s).2.2.1 = false →
      (doAttempt policy ctxErr kill primary fallback hooks s).2.2.2.counter =
        nextCounter kill s.counter ∧
      (doAttempt policy ctxErr kill primary fallback hooks s).2.2.2.forcedCloses =
        nextForced kill s.counter s.forcedCloses) := by
  cases hro : hooks.onRequest <;>
    cases hb : isErrorHTTP1Broken (primary (s.primaryCalls)).2 <;>
      simp [doAttempt, hro, hb, closeIdleConnections, nextCounter, nextForced] <;>
        split_ifs <;> simp_all

/-- Witness for `c5_maintenance_on_terminal_attempts_amended`: a retried
attempt leaves the counters unchanged, a terminal attempt applies the
maintenance step. -/
theorem c5_maintenance_on_terminal_attempts_amended_witness :
    (doAttempt alwaysRetryPolicy none true failTransport failTransport noHooks
        initialDoState).2.2.2.counter = initialDoState.counter ∧
    (doAttempt stopPolicy none true failTransport failTransport noHooks
        initialDoState).2.2.2.counter = nextCounter true initialDoState.counter :=
  ⟨((c5_maintenance_on_terminal_attempts_amended alwaysRetryPolicy none true failTransport
      failTransport noHooks initialDoState).1 (by decide)).1,
   ((c5_maintenance_on_terminal_attempts_amended stopPolicy none true failTransport
      failTransport noHooks initialDoState).2 (by decide)).1⟩

/-- Claim C6 counterexample: in an attempt where the primary transport
fails with the protocol-version-mismatch signature and the request is
re-issued on the HTTP/2 fallback (the fallback call count does advance),
the installed before-request hook fires once, not once per physical
transport invocation (the claim requires two firings here). -/
theorem c6_on_request_per_transport_call_counterexample :
    (doAttempt stopPolicy none false brokenTransport fallbackOnceTransport onRequestHooks
        initialDoState).2.2.2.fallbackCalls = 1 ∧
    (doAttempt stopPolicy none false brokenTransport fallbackOnceTransport onRequestHooks
        initialDoState).2.2.2.primaryCalls = 1 ∧
    (doAttempt stopPolicy none false brokenTransport fallbackOnceTransport onRequestHooks
        initialDoState).2.2.2.onRequestFires = 1 := by
  refine ⟨by decide, by decide, by decide⟩

/-- Claim C6 as amended: the before-request hook fires exactly once per
retry attempt, at the start of the attempt's work unit — it does not fire
again when the attempt re-issues the request on the HTTP/2 fallback. -/
theorem c6_on_request_once_per_attempt_amended (policy : PolicyFun)
    (ctxErr : Option GoError) (kill : Bool)
    (primary fallback : Nat → Option Resp × Option GoError) (hooks : Hooks)
    (s : DoState) (h : hooks.onRequest = true) :
    (doAttempt policy ctxErr kill primary fallback hooks s).2.2.2.onRequestFires =
      s.onRequestFires + 1 := by
  cases hb : isErrorHTTP1Broken (primary (s.primaryCalls)).2 <;>
    simp [doAttempt, h, hb, closeIdleConnections] <;>
      split_ifs <;> simp_all

/-- Witness for `c6_on_request_once_per_attempt_amended` at the fallback
scenario fixtures. -/
theorem c6_on_request_once_per_attempt_amended_witness :
    (doAttempt stopPolicy none false brokenTransport fallbackOnceTransport onRequestHooks
        initialDoState).2.2.2.onRequestFires = initialDoState.onRequestFires + 1 :=
  c6_on_request_once_per_attempt_amended stopPolicy none false brokenTransport
    fallbackOnceTransport onRequestHooks initialDoState rfl

set_option maxRecDepth 40000 in
/-- Claim C8 counterexample: after 100 successful sequential calls with
close-idle-connections enabled, the request counter sitting between calls
equals 100 — it is not strictly below the threshold of 100, and it was not
reset upon reaching the threshold (the reset only happens at the start of
the next call's maintenance step). -/
theorem c8_counter_bound_counterexample :
    (doCalls 1 true stopPolicy none succeedTransport succeedTransport noHooks "GET"
        "http://example.com/ping" 100 initialDoState).counter = 100 ∧
    ¬ (doCalls 1 true stopPolicy none succeedTransport succeedTransport noHooks "GET"
        "http://example.com/ping" 100 initialDoState).counter < 100 ∧
    (doCalls 1 true stopPolicy none succeedTransport succeedTransport noHooks "GET"
        "http://example.com/ping" 100 initialDoState).forcedCloses = 0 := by
  refine ⟨by decide, by decide, by decide⟩

/-- Claim C8 as amended: the request counter is bounded in [0, 100] — one
maintenance step starting from a counter ≤ 100 leaves it ≤ 100 — and when a
maintenance step finds the counter at the threshold (no longer below 100)
it resets it to 0 and triggers exactly one forced close of the primary
transport's idle connections. -/
theorem c8_counter_bound_amended (kill : Bool) (s : DoState)
    (hle : s.counter ≤ 100) :
    (closeIdleConnections kill s).counter ≤ 100 ∧
    (s.counter = 100 → closeIdleConnections true s =
      { s with counter := 0, forcedCloses := s.forcedCloses + 1 }) := by
  constructor
  · simp only [closeIdleConnections]
    split_ifs with h1 h2
    · show s.counter + 1 ≤ 100
      omega
    · show (0 : Nat) ≤ 100
      omega
    · exact hle
  · intro h100
    simp [closeIdleConnections, h100]

/-- Witness for `c8_counter_bound_amended` at a state holding the
threshold value. -/
theorem c8_counter_bound_amended_witness :
    (closeIdleConnections true atThresholdState).counter ≤ 100 ∧
    closeIdleConnections true atThresholdState =
      { atThresholdState with
        counter := 0,
        forcedCloses := atThresholdState.forcedCloses + 1 } :=
  ⟨(c8_counter_bound_amended true atThresholdState (by decide)).1,
   (c8_counter_bound_amended true atThresholdState (by decide)).2 (by decide)⟩

theorem closeIdleConnections_onErrorFires (kill : Bool) (s : DoState) :
    (closeIdleConnections kill s).onErrorFires = s.onErrorFires := by
  simp only [closeIdleConnections]
  split_ifs <;> rfl

theorem doAttempt_onErrorFires (policy : PolicyFun) (ctxErr : Option GoError) (kill : Bool)
    (primary fallback : Nat → Option Resp × Option GoError) (hooks : Hooks) (s : DoState) :
    (doAttempt policy ctxErr kill primary fallback hooks s).2.2.2.onErrorFires =
      s.onErrorFires := by
  cases hro : hooks.onRequest <;>
    cases hb : isErrorHTTP1Broken (primary (s.primaryCalls)).2 <;>
      simp [doAttempt, hro, hb, closeIdleConnections] <;>
        split_ifs <;> simp_all

theorem retryLoop_onErrorFires (policy : PolicyFun) (ctxErr : Option GoError) (kill : Bool)
    (primary fallback : Nat → Option Resp × Option GoError) (hooks : Hooks) (n : Nat)
    (s : DoState) :
    (retryLoop policy ctxErr kill primary fallback hooks n s).2.2.onErrorFires =
      s.onErrorFires := by
  induction n generalizing s with
  | zero =>
    simp [retryLoop, doAttempt_onErrorFires]
  | succ n ih =>
    simp only [retryLoop]
    split_ifs
    · rw [ih]
      exact doAttempt_onErrorFires policy ctxErr kill primary fallback hooks s
    · exact doAttempt_onErrorFires policy ctxErr kill primary fallback hooks s

/-- Claim C9 (confirmed; the retry engine is modelled from the spec): when
an on-error hook is installed, every `Do` call runs
`closeIdleConnections`, fires the hook exactly once — also when the loop
ended with a nil error — and returns exactly the `(response, error)` pair
the hook produced, never entering the "giving up after N attempts"
wrapping path. -/
theorem c9_on_error_hook_exactly_once (retryMax : Nat) (kill : Bool) (policy : PolicyFun)
    (ctxErr : Option GoError) (primary fallback : Nat → Option Resp × Option GoError)
    (hooks : Hooks) (method url : String) (s : DoState)
    (h : Option Resp → Option GoError → Nat → Option Resp × Option GoError)
    (hh : hooks.onError = some h) :
    doExec retryMax kill policy ctxErr primary fallback hooks method url s =
      ((h (retryLoop policy ctxErr kill primary fallback hooks retryMax s).1
          (retryLoop policy ctxErr kill primary fallback hooks retryMax s).2.1 retryMax).1,
       (h (retryLoop policy ctxErr kill primary fallback hooks retryMax s).1
          (retryLoop policy ctxErr kill primary fallback hooks retryMax s).2.1 retryMax).2,
       { closeIdleConnections kill
           (retryLoop policy ctxErr kill primary fallback hooks retryMax s).2.2 with
         onErrorFires :=
           (closeIdleConnections kill
             (retryLoop policy ctxErr kill primary fallback hooks retryMax s).2.2).onErrorFires +
             1 }) ∧
    (doExec retryMax kill policy ctxErr primary fallback hooks method url s).2.2.onErrorFires =
      s.onErrorFires + 1 := by
  have hpre :
      doExec retryMax kill policy ctxErr primary fallback hooks method url s =
        ((h (retryLoop policy ctxErr kill primary fallback hooks retryMax s).1
            (retryLoop policy ctxErr kill primary fallback hooks retryMax s).2.1 retryMax).1,
         (h (retryLoop policy ctxErr kill primary fallback hooks retryMax s).1
            (retryLoop policy ctxErr kill primary fallback hooks retryMax s).2.1 retryMax).2,
         { closeIdleConnections kill
             (retryLoop policy ctxErr kill primary fallback hooks retryMax s).2.2 with
           onErrorFires :=
             (closeIdleConnections kill
               (retryLoop policy ctxErr kill primary fallback hooks
                 retryMax s).2.2).onErrorFires + 1 }) := by
    simp [doExec, hh]
  refine ⟨hpre, ?_⟩
  rw [hpre]
  simp [closeIdleConnections_onErrorFires, retryLoop_onErrorFires]

/-- Witness for `c9_on_error_hook_exactly_once`: with a pass-through
on-error hook and a succeeding transport, the hook fires exactly once even
though the final attempt succeeded with a nil error. -/
theorem c9_on_error_hook_exactly_once_witness :
    (doExec 1 false stopPolicy none succeedTransport succeedTransport
        passThroughOnErrorHooks "GET" "http://example.com/ok"
        initialDoState).2.2.onErrorFires = initialDoState.onErrorFires + 1 :=
  (c9_on_error_hook_exactly_once 1 false stopPolicy none succeedTransport succeedTransport
    passThroughOnErrorHooks "GET" "http://example.com/ok" initialDoState
    (fun r e _ => (r, e)) rfl).2

/-- Claim C10 (confirmed): `NewClient` keeps working on the caller's
configuration object (the pointer is stored without copying, modelled as
the returned post-construction configuration): a nil `RetryPolicy` is
overwritten with the default retry policy, a nil `RetryBackoff` with the
exponential backoff, non-nil values are kept, `KillIdleConn` is rewritten
from the chosen primary transport by `setKillIdleConnections`, and every
other field is left unchanged; in particular the package-level
`DefaultSingleClientConfiguration`, passed to `NewClient` by the load-time
`init`, starts with nil policy and backoff and ends up carrying the default
policy and the exponential backoff. -/
theorem c10_new_client_mutates_cfg (cfg : ClientConfiguration) :
    ((newClientCfg cfg).httpClient = cfg.httpClient ∧
     (newClientCfg cfg).timeout = cfg.timeout ∧
     (newClientCfg cfg).retryMax = cfg.retryMax ∧
     (newClientCfg cfg).retryWaitMin = cfg.retryWaitMin ∧
     (newClientCfg cfg).retryWaitMax = cfg.retryWaitMax ∧
     (newClientCfg cfg).respReadLimit = cfg.respReadLimit) ∧
    (cfg.retryPolicy = none →
      (newClientCfg cfg).retryPolicy = some PolicyTag.defaultPolicy) ∧
    (∀ p, cfg.retryPolicy = some p → (newClientCfg cfg).retryPolicy = some p) ∧
    (cfg.retryBackoff = none →
      (newClientCfg cfg).retryBackoff = some BackoffTag.exponential) ∧
    (∀ b, cfg.retryBackoff = some b → (newClientCfg cfg).retryBackoff = some b) ∧
    (newClientCfg cfg).killIdleConn =
      setKillIdleConnections (newClientPrimaryTransport cfg) cfg.killIdleConn ∧
    (DefaultSingleClientConfiguration.retryPolicy = none ∧
     DefaultSingleClientConfiguration.retryBackoff = none ∧
     (newClientCfg DefaultSingleClientConfiguration).retryPolicy =
       some PolicyTag.defaultPolicy ∧
     (newClientCfg DefaultSingleClientConfiguration).retryBackoff =
       some BackoffTag.exponential) := by
  cases hrp : cfg.retryPolicy <;> cases hrb : cfg.retryBackoff <;>
    simp [newClientCfg, hrp, hrb] <;> decide

/-- Witness for `c10_new_client_mutates_cfg`, instantiated at the
package-level default configuration (nil policy and backoff) and at a
configuration carrying custom values. -/
theorem c10_new_client_mutates_cfg_witness :
    (newClientCfg DefaultSingleClientConfiguration).retryPolicy =
      some PolicyTag.defaultPolicy ∧
    (newClientCfg DefaultSingleClientConfiguration).retryBackoff =
      some BackoffTag.exponential ∧
    (newClientCfg { DefaultSingleClientConfiguration with
      retryPolicy := some (PolicyTag.custom 7),
      retryBackoff := some (BackoffTag.custom 9) }).retryPolicy =
        some (PolicyTag.custom 7) ∧
    (newClientCfg { DefaultSingleClientConfiguration with
      retryPolicy := some (PolicyTag.custom 7),
      retryBackoff := some (BackoffTag.custom 9) }).retryBackoff =
        some (BackoffTag.custom 9) :=
  ⟨(c10_new_client_mutates_cfg DefaultSingleClientConfiguration).2.1 rfl,
   (c10_new_client_mutates_cfg DefaultSingleClientConfiguration).2.2.2.1 rfl,
   (c10_new_client_mutates_cfg { DefaultSingleClientConfiguration with
      retryPolicy := some (PolicyTag.custom 7),
      retryBackoff := some (BackoffTag.custom 9) }).2.2.1 (PolicyTag.custom 7) rfl,
   (c10_new_client_mutates_cfg { DefaultSingleClientConfiguration with
      retryPolicy := some (PolicyTag.custom 7),
      retryBackoff := some (BackoffTag.custom 9) }).2.2.2.2.1 (BackoffTag.custom 9) rfl⟩

theorem reusableRead_mid (data : List Nat) (m cap : Nat) (hm : m < data.length) :
    reusableRead { data := data, pos := m } cap =
      ((data.drop m).take cap,
       { data := data, pos := m + min cap (data.length - m) }) := by
  have h0 : ¬ data.length = 0 := by omega
  have hle : ¬ data.length ≤ m := by omega
  simp [reusableRead, bytesReaderRead, h0, hle, List.length_take, List.length_drop]

theorem reusableRead_at_end (data : List Nat) (cap : Nat) (hL : 0 < data.length) :
    reusableRead { data := data, pos := data.length } cap =
      (data.take cap, { data := data, pos := min cap data.length }) := by
  have h0 : ¬ data.length = 0 := by omega
  have hle : ¬ data.length ≤ 0 := by omega
  simp [reusableRead, bytesReaderRead, h0, hle, List.length_take]

theorem readLoop_take (cap : Nat) (hcap : 0 < cap) (data : List Nat) :
    ∀ (fuel m : Nat), m ≤ data.length → data.length - m < fuel →
    readLoop cap fuel { data := data, pos := m } (data.take m) =
      (data, { data := data, pos := data.length }) := by
  intro fuel
  induction fuel with
  | zero =>
    intro m hm hf
    omega
  | succ fuel ih =>
    intro m hm hf
    by_cases hend : data.length ≤ m
    · have hm' : m = data.length := Nat.le_antisymm hm hend
      subst hm'
      simp [readLoop, List.take_length]
    · push_neg at hend
      have hlen : (data.take m).length = m := by
        simp [List.length_take]
        omega
      have hcond : ¬ data.length ≤ (data.take m).length := by
        rw [hlen]
        omega
      have hmin1 : 1 ≤ min cap (data.length - m) := by omega
      have hacc : data.take m ++ (data.drop m).take cap =
          data.take (m + min cap (data.length - m)) := by
        rw [← List.take_add]
        rw [List.take_eq_take]
        omega
      rw [readLoop, if_neg hcond, reusableRead_mid data m cap hend]
      simp only []
      rw [hacc]
      exact ih (m + min cap (data.length - m)) (by omega) (by omega)

theorem readToCompletion_from_start (cap : Nat) (hcap : 0 < cap) (data : List Nat) :
    readToCompletion { data := data, pos := 0 } cap =
      (data, { data := data, pos := data.length }) := by
  have h := readLoop_take cap hcap data (data.length + 1) 0 (Nat.zero_le _) (by omega)
  simpa [readToCompletion] using h

theorem readToCompletion_from_end (cap : Nat) (hcap : 0 < cap) (data : List Nat) :
    readToCompletion { data := data, pos := data.length } cap =
      (data, { data := data, pos := data.length }) := by
  by_cases hL : data.length = 0
  · have hnil : data = [] := List.length_eq_zero.mp hL
    subst hnil
    simp [readToCompletion, readLoop]
  · have hL' : 0 < data.length := by omega
    have hcond : ¬ data.length ≤ ([] : List Nat).length := by
      simp only [List.length_nil]
      omega
    have hacc : ([] : List Nat) ++ data.take cap = data.take (min cap data.length) := by
      simp only [List.nil_append]
      rw [List.take_eq_take]
      exact (Nat.min_eq_left (Nat.min_le_right cap data.length)).symm
    rw [readToCompletion]
    rw [readLoop, if_neg hcond, reusableRead_at_end data cap hL']
    simp only []
    rw [hacc]
    exact readLoop_take cap hcap data data.length (min cap data.length)
      (by omega) (by omega)

/-- Claim C7 (confirmed): for every supported body input type and every
positive read-buffer capacity, reading the constructed reusable body to
completion and then reading it again from that point yields the stored
byte sequence both times — on hitting end-of-data the reader resets its
cursor to 0 instead of staying exhausted, so repeated full reads reproduce
the same bytes. -/
theorem c7_reusable_body_replay (raw : RawBody) (cap : Nat) (hcap : 0 < cap) :
    (readToCompletion (newReusableReadCloser raw) cap).1 = rawBodyData raw ∧
    (readToCompletion (readToCompletion (newReusableReadCloser raw) cap).2 cap).1 =
      rawBodyData raw := by
  have h1 := readToCompletion_from_start cap hcap (rawBodyData raw)
  have h2 := readToCompletion_from_end cap hcap (rawBodyData raw)
  constructor
  · rw [newReusableReadCloser, h1]
  · rw [newReusableReadCloser, h1]
    rw [h2]

/-- Witness for `c7_reusable_body_replay` on a five-byte body read through
a two-byte buffer. -/
theorem c7_reusable_body_replay_witness :
    (readToCompletion (newReusableReadCloser (RawBody.bytes [1, 2, 3, 4, 5])) 2).1 =
      rawBodyData (RawBody.bytes [1, 2, 3, 4, 5]) ∧
    (readToCompletion
        (readToCompletion (newReusableReadCloser (RawBody.bytes [1, 2, 3, 4, 5])) 2).2 2).1 =
      rawBodyData (RawBody.bytes [1, 2, 3, 4, 5]) :=
  c7_reusable_body_replay (RawBody.bytes [1, 2, 3, 4, 5]) 2 (by decide)

end HqHttp
